import Mathlib

/-!
Verification of the trace-observability core of the BI agent service
(`app/callbacks.py`, `app/main.py`, `app/multi_agent.py`,
`app/evaluation_dataset.py`) against its natural-language specification.

The embedding is shallow: handler state, the trace store, and the callback
hooks are translated directly from the Python sources.  Wall-clock instants
are abstract ticks (`Nat`); their ISO-8601 rendering is an injective encoding
into strings, and `datetime.fromisoformat` is modelled as its partial inverse.
Python's `datetime - str` raising `TypeError` is modelled explicitly, since
the handler stores its start time as a string.
-/

namespace Observability

/-- Python exception kinds relevant to this code. -/
inductive PyErr
  | typeError
  | valueError
deriving DecidableEq, Repr

/-- Abstract rendering of a wall-clock instant (an abstract tick) as its
ISO-8601 string, as produced by `datetime.utcnow().isoformat()`.  The encoding
is injective; the concrete digits of a timestamp are irrelevant to the code. -/
def isoFormat (t : Nat) : String := String.mk (List.replicate (t + 1) 'T')

/-- Model of `datetime.datetime.fromisoformat`: inverts `isoFormat`, raising
`ValueError` on any string that is not such a rendering.  (The source first
normalises a trailing `Z` via `.replace('Z', '+00:00')`; the abstract
renderings contain no `Z`, so that normalisation is the identity here.) -/
def fromIso (s : String) : Except PyErr Nat :=
  match s.toList with
  | [] => .error .valueError
  | c :: cs =>
    if (c :: cs).all (fun x => x == 'T') then .ok cs.length else .error .valueError

/-- A Python value that is either a `datetime` object or a string.  The
handler's `start_time` attribute holds a string (set via `.isoformat()` in
`__init__`), while the `end_time` locals hold `datetime` objects. -/
inductive PyTime
  | dt (t : Nat)
  | str (s : String)
deriving DecidableEq, Repr

/-- Python subtraction on such values: `datetime - datetime` yields a
timedelta (here, the signed tick difference); subtraction involving a string
raises `TypeError`. -/
def pySub : PyTime → PyTime → Except PyErr Int
  | .dt a, .dt b => .ok ((a : Int) - (b : Int))
  | _, _ => .error .typeError

/-- Bool test that the character list `needle` is an initial segment of `hay`. -/
def startsWithChars : List Char → List Char → Bool
  | [], _ => true
  | _ :: _, [] => false
  | a :: as, b :: bs => a == b && startsWithChars as bs

/-- Bool test that the character list `needle` occurs contiguously in `hay`. -/
def containsChars : List Char → List Char → Bool
  | needle, [] => needle.isEmpty
  | needle, c :: cs => startsWithChars needle (c :: cs) || containsChars needle cs

/-- Python's substring test `needle in hay` on strings. -/
def strIn (needle hay : String) : Bool := containsChars needle.toList hay.toList

/-- Python's `str.upper()` on the ASCII texts this code handles: uppercases
character by character. -/
def strUpper (s : String) : String := String.mk (s.toList.map Char.toUpper)

/-- Python's `str.lower()` on the ASCII texts this code handles: lowercases
character by character. -/
def strLower (s : String) : String := String.mk (s.toList.map Char.toLower)

/-- Python truthiness of an `Optional[str]`: `None` and the empty string are
falsy, every other string is truthy. -/
def pyTruthy : Option String → Bool
  | none => false
  | some s => s != ""

/-- Python `dict.get` on a string-keyed dict (modelled as an association
list), returning `none` when the key is absent. -/
def dictGet (d : List (String × String)) (k : String) : Option String :=
  (d.find? (fun p => p.1 == k)).map (·.2)

/-- One recorded step of a run, as appended by `on_agent_action` (an `action`
entry: tool, tool input, stripped reasoning log, timestamp) and `on_tool_end`
(an `observation` entry: tool output, timestamp). -/
inductive Step
  | action (tool : String) (tool_input : String) (log : String) (timestamp : String)
  | observation (output : String) (timestamp : String)
deriving DecidableEq, Repr

/-- The `trace_data` dict built up by `TraceLoggerCallbackHandler`:
`run_id`, `steps`, `final_output`, `status`, `@timestamp`, plus the `error`
and `duration_ms` keys added later by the error/finish hooks. -/
structure TraceData where
  run_id : String
  steps : List Step
  final_output : Option String
  status : String
  timestamp : String
  error : Option String
  duration_ms : Option Int
deriving DecidableEq, Repr

/-- The trace document shape written by `_log_trace`: run identifier (the
store's document key), question, agent type, final answer, status, the
`self.steps` list, start/end timestamps, and the duration in (abstract)
seconds. -/
structure TraceDocument where
  run_id : String
  question : String
  agent_type : String
  final_answer : Option String
  status : String
  steps : List Step
  start_time : String
  end_time : String
  duration_seconds : Int
deriving DecidableEq, Repr

/-- The mutable state of one `TraceLoggerCallbackHandler` instance. -/
structure Handler where
  run_id : String
  steps : List Step
  final_answer : Option String
  start_time : String
  agent_type : String
  original_question : String
  trace_data : TraceData
deriving DecidableEq, Repr

/-- `TraceLoggerCallbackHandler.__init__`: a fresh run identifier (taken here
as a parameter, standing for `uuid.uuid4()`), empty step lists, no final
answer yet, the start instant stored as its ISO string, and the initial
`trace_data` dict with status `started`. -/
def Handler.init (rid : String) (t0 : Nat) : Handler :=
  { run_id := rid
    steps := []
    final_answer := none
    start_time := isoFormat t0
    agent_type := "single_agent"
    original_question := ""
    trace_data :=
      { run_id := rid
        steps := []
        final_output := none
        status := "started"
        timestamp := isoFormat t0
        error := none
        duration_ms := none } }

/-- `on_agent_action`: appends an `action` step (with the reasoning log
stripped) to `trace_data["steps"]`.  Note it does not touch `self.steps`. -/
def Handler.on_agent_action (h : Handler) (tool tool_input log : String) (t : Nat) : Handler :=
  { h with trace_data :=
      { h.trace_data with
        steps := h.trace_data.steps ++ [Step.action tool tool_input log.trim (isoFormat t)] } }

/-- `on_tool_end`: appends an `observation` step to `trace_data["steps"]`.
Note it does not touch `self.steps`. -/
def Handler.on_tool_end (h : Handler) (output : String) (t : Nat) : Handler :=
  { h with trace_data :=
      { h.trace_data with
        steps := h.trace_data.steps ++ [Step.observation output (isoFormat t)] } }

/-- `set_agent_context`: records the agent type, and the question when it is
non-empty. -/
def Handler.set_agent_context (h : Handler) (agent_type : String) (question : String) : Handler :=
  let h := { h with agent_type := agent_type }
  if question ≠ "" then { h with original_question := question } else h

/-- The trace document built and persisted by `_log_trace`: its status is
`completed` precisely when the final answer is truthy and does not contain
the substring `Error`, and `error` otherwise. -/
def Handler.trace_document (h : Handler) (startT tEnd : Nat) : TraceDocument :=
  { run_id := h.run_id
    question := h.original_question
    agent_type := h.agent_type
    final_answer := h.final_answer
    status :=
      if pyTruthy h.final_answer && !(strIn "Error" (h.final_answer.getD "")) then
        "completed"
      else
        "error"
    steps := h.steps
    start_time := h.start_time
    end_time := isoFormat tEnd
    duration_seconds := (tEnd : Int) - (startT : Int) }

/-- A document stored in the trace index: either a `trace_document` built by
`_log_trace`, or the raw `trace_data` dict sent by `_log_to_elasticsearch`. -/
inductive StoredDoc
  | finalDoc (d : TraceDocument)
  | rawData (d : TraceData)
deriving DecidableEq, Repr

/-- The trace store (the `agent_traces` index): an association list from
document identifiers to documents. -/
abbrev Store := List (String × StoredDoc)

/-- Behaviour of the trace store for one interaction: the module-level client
is `None` (connection failed at startup), the store accepts writes, or the
store rejects/raises on write. -/
inductive StoreBehaviour
  | absent
  | ok
  | failing
deriving DecidableEq, Repr

/-- An `index(id=..., document=...)` write with an explicit id is an
upsert: it overwrites the entry with that key, or appends a fresh one. -/
def Store.upsert : Store → String → StoredDoc → Store
  | [], key, d => [(key, d)]
  | (k, v) :: rest, key, d =>
    if k == key then (key, d) :: rest else (k, v) :: Store.upsert rest key d

/-- The documents stored under a given identifier. -/
def Store.docsFor (s : Store) (key : String) : Store :=
  s.filter (fun p => p.1 == key)

/-- The store write primitive `es_client.index(...)`: succeeds with the
upserted store, or raises when the store is unreachable/rejecting.  Callers
in the source only reach it after checking the client exists. -/
def esIndex (b : StoreBehaviour) (s : Store) (key : String) (d : StoredDoc) :
    Except String Store :=
  match b with
  | .ok => .ok (Store.upsert s key d)
  | .failing => .error "write rejected"
  | .absent => .error "no client"

/-- `_log_trace`: a no-op when the client is absent; otherwise parses the
stored start time (outside the try block), builds the trace document and
indexes it under the run identifier, catching any exception from the write.
Returns the new store, the number of persistence attempts made (0 or 1), and
the exception escaping the call, if any. -/
def Handler.log_trace (h : Handler) (b : StoreBehaviour) (store : Store) (tEnd : Nat) :
    Store × Nat × Option PyErr :=
  if b = .absent then (store, 0, none)
  else
    match fromIso h.start_time with
    | .error e => (store, 0, some e)
    | .ok startT =>
      match esIndex b store h.run_id (.finalDoc (h.trace_document startT tEnd)) with
      | .ok s' => (s', 1, none)
      | .error _ => (store, 1, none)

/-- `_log_to_elasticsearch`: does nothing when the client is absent;
otherwise indexes the `trace_data` dict under the run identifier, catching
any exception from the write. -/
def Handler.log_to_elasticsearch (h : Handler) (b : StoreBehaviour) (store : Store) :
    Store × Nat × Option PyErr :=
  if b = .absent then (store, 0, none)
  else
    match esIndex b store h.run_id (.rawData h.trace_data) with
    | .ok s' => (s', 1, none)
    | .error _ => (store, 1, none)

/-- Result of invoking one callback hook: the handler state after whatever
mutations happened before a possible raise, the store, the number of
persistence attempts performed, and the exception propagating out of the
hook, if any. -/
structure HookResult where
  handler : Handler
  store : Store
  attempts : Nat
  exc : Option PyErr
deriving DecidableEq, Repr

/-- `on_agent_finish`: records the final output and `finished` status into
`trace_data`, then computes `duration_ms` as `end_time - self.start_time` —
a `datetime` minus the stored ISO string — before calling
`_log_to_elasticsearch`. -/
def Handler.on_agent_finish (h : Handler) (return_values : List (String × String))
    (b : StoreBehaviour) (store : Store) (tEnd : Nat) : HookResult :=
  let out := (dictGet return_values "output").getD ""
  let h := { h with trace_data :=
    { h.trace_data with final_output := some out, status := "finished" } }
  match pySub (.dt tEnd) (.str h.start_time) with
  | .error e => ⟨h, store, 0, some e⟩
  | .ok d =>
    let h := { h with trace_data := { h.trace_data with duration_ms := some (d * 1000) } }
    let (s', n, e) := h.log_to_elasticsearch b store
    ⟨h, s', n, e⟩

/-- `on_chain_error`: sets the final answer to the empty string and the
`error` status/message, then computes `duration_ms` the same way as
`on_agent_finish` before calling `_log_trace`. -/
def Handler.on_chain_error (h : Handler) (msg : String)
    (b : StoreBehaviour) (store : Store) (tEnd : Nat) : HookResult :=
  let h := { h with
    final_answer := some ""
    trace_data := { h.trace_data with status := "error", error := some msg } }
  match pySub (.dt tEnd) (.str h.start_time) with
  | .error e => ⟨h, store, 0, some e⟩
  | .ok d =>
    let h := { h with trace_data := { h.trace_data with duration_ms := some (d * 1000) } }
    let (s', n, e) := h.log_trace b store tEnd
    ⟨h, s', n, e⟩

/-- `_handle_error` (shared by `on_llm_error` and `on_tool_error`): sets the
final answer to `"Error: ..."` and the `error` status/message, computes
`duration_ms` the same way, then calls `_log_to_elasticsearch`. -/
def Handler.handle_error (h : Handler) (msg : String)
    (b : StoreBehaviour) (store : Store) (tEnd : Nat) : HookResult :=
  let h := { h with
    final_answer := some ("Error: " ++ msg)
    trace_data := { h.trace_data with status := "error", error := some msg } }
  match pySub (.dt tEnd) (.str h.start_time) with
  | .error e => ⟨h, store, 0, some e⟩
  | .ok d =>
    let h := { h with trace_data := { h.trace_data with duration_ms := some (d * 1000) } }
    let (s', n, e) := h.log_to_elasticsearch b store
    ⟨h, s', n, e⟩

/-- `on_llm_error` delegates to `_handle_error`. -/
def Handler.on_llm_error (h : Handler) (msg : String)
    (b : StoreBehaviour) (store : Store) (tEnd : Nat) : HookResult :=
  h.handle_error msg b store tEnd

/-- `on_tool_error` delegates to `_handle_error`. -/
def Handler.on_tool_error (h : Handler) (msg : String)
    (b : StoreBehaviour) (store : Store) (tEnd : Nat) : HookResult :=
  h.handle_error msg b store tEnd

/-- `on_chain_end`: grabs the final answer from `outputs["output"]` when it
is still unset and that value is truthy, then flushes via `_log_trace`
whenever a final answer is set or `self.steps` is non-empty. -/
def Handler.on_chain_end (h : Handler) (outputs : List (String × String))
    (b : StoreBehaviour) (store : Store) (tEnd : Nat) : HookResult :=
  let h :=
    if h.final_answer.isNone && pyTruthy (dictGet outputs "output") then
      { h with final_answer := dictGet outputs "output" }
    else h
  if !h.final_answer.isNone || !h.steps.isEmpty then
    let (s', n, e) := h.log_trace b store tEnd
    ⟨h, s', n, e⟩
  else ⟨h, store, 0, none⟩

/-- One action/observation event emitted by the agent engine to its callback
handler during a run, with its occurrence tick. -/
inductive AgentEvent
  | action (tool tool_input log : String) (t : Nat)
  | toolEnd (output : String) (t : Nat)
deriving DecidableEq, Repr

/-- Dispatch a sequence of action/observation events into a handler, in
chronological order. -/
def Handler.feed (h : Handler) : List AgentEvent → Handler
  | [] => h
  | .action tool ti log t :: rest => (h.on_agent_action tool ti log t).feed rest
  | .toolEnd o t :: rest => (h.on_tool_end o t).feed rest

/-- The terminal outcome of one agent-executor invocation: a result dict with
an `output` entry, or a raised exception with a message. -/
inductive StageOutcome
  | ok (output : String)
  | err (msg : String)
deriving DecidableEq, Repr

/-- One agent-executor run as observed at the callback boundary: the
action/observation events it emits, followed by its terminal outcome.  This
abstracts the LLM-driven reasoning loop, which is a consumed collaborator. -/
structure StageRun where
  events : List AgentEvent
  outcome : StageOutcome
deriving DecidableEq, Repr

/-- One `AgentExecutor.invoke(..., config={"callbacks": [h]})` as observed
through the handler `h`: the run's events are dispatched in order; on normal
exit the engine fires `on_agent_finish` and then the executor chain's
`on_chain_end` with the output dict; on an error it fires `on_chain_error`
and re-raises.  The callback engine invokes handler hooks with exception
suppression — a handler exception is logged and swallowed (the engine's
default `raise_error = False` behaviour), so it does not abort the agent run,
and the mutations and writes performed before the raise are kept.  Returns
the handler, the store, the persistence attempts performed under this
handler, and the invocation result. -/
def invokeWith (h : Handler) (run : StageRun) (b : StoreBehaviour) (store : Store)
    (tEnd : Nat) : Handler × Store × Nat × Except String String :=
  let h := h.feed run.events
  match run.outcome with
  | .ok out =>
    let r1 := h.on_agent_finish [("output", out)] b store tEnd
    let r2 := r1.handler.on_chain_end [("output", out)] b r1.store tEnd
    (r2.handler, r2.store, r1.attempts + r2.attempts, .ok out)
  | .err m =>
    let r := h.on_chain_error m b store tEnd
    (r.handler, r.store, r.attempts, .error m)

/-- The `/query` response payload. -/
structure QueryResponse where
  answer : String
  run_id : String
  error : Option String
deriving DecidableEq, Repr

/-- The `/query` endpoint `handle_query`: instantiates a fresh handler for
the request, invokes the single agent with it (the BI-analyst prompt
wrapping only rephrases the agent input and is folded into the run), and
returns the answer with the run identifier; any exception is caught and
returned as an error payload carrying the same run identifier.  Also returns
the store and the persistence attempts made under this run. -/
def handle_query (question rid : String) (t0 : Nat) (run : StageRun)
    (b : StoreBehaviour) (store : Store) (tEnd : Nat) : QueryResponse × Store × Nat :=
  let th := Handler.init rid t0
  let r := invokeWith th run b store tEnd
  match r.2.2.2 with
  | .ok out => ({ answer := out, run_id := rid, error := none }, r.2.1, r.2.2.1)
  | .error e =>
    ({ answer := "", run_id := rid, error := some ("An error occurred: " ++ e) },
     r.2.1, r.2.2.1)

/-- The dict returned by `MultiAgentOrchestrator.process_query` on success. -/
structure OrchestrationResult where
  sql_findings : String
  analytics_insights : String
  final_report : String
  agent_flow : List String
deriving DecidableEq, Repr

/-- An exception escaping `process_query`: a re-raised stage exception, or an
internal exception raised by the terminal flush itself. -/
inductive PipelineError
  | stage (msg : String)
  | internal (e : PyErr)
deriving DecidableEq, Repr

/-- String rendering of a pipeline exception, as interpolated into the
endpoint's error message. -/
def PipelineError.message : PipelineError → String
  | .stage m => m
  | .internal .typeError => "TypeError"
  | .internal .valueError => "ValueError"

/-- The full observable result of `process_query`: the top-level handler, the
store, the persistence attempts made during the call, and the outcome. -/
structure ProcessResult where
  handler : Handler
  store : Store
  attempts : Nat
  outcome : Except PipelineError OrchestrationResult
deriving Repr

/-- The `finally` block of `process_query`: explicitly ends the top-level run
via `on_chain_end`, passing the final answer as the output dict when it is
truthy and an empty dict otherwise.  An exception raised by the flush masks
the pending outcome, per Python `finally` semantics. -/
def finallyEnd (th : Handler) (b : StoreBehaviour) (store : Store) (n : Nat) (tEnd : Nat)
    (pending : Except PipelineError OrchestrationResult) : ProcessResult :=
  let r :=
    if pyTruthy th.final_answer then
      th.on_chain_end [("output", th.final_answer.getD "")] b store tEnd
    else
      th.on_chain_end [] b store tEnd
  { handler := r.handler
    store := r.store
    attempts := n + r.attempts
    outcome :=
      match r.exc with
      | some e => .error (.internal e)
      | none => pending }

/-- `MultiAgentOrchestrator.process_query`: resets the top-level handler's
steps, sets the orchestrator context, then runs the SQL, Analytics and
Reporting stages sequentially, each on a fresh sub-handler, extending
`all_steps` with each sub-handler's `steps` attribute after its stage
returns.  If a stage raises, the final answer is set to the empty string,
the steps accumulated so far are kept, and the exception is re-raised; in
every case the `finally` block ends the run with exactly one terminal flush
of the top-level trace. -/
def process_query (question : String) (th : Handler)
    (sqlId anaId repId : String) (subT : Nat)
    (sqlRun anaRun repRun : StageRun)
    (b : StoreBehaviour) (store : Store) (tEnd : Nat) : ProcessResult :=
  let th := { th with steps := [] }
  let th := th.set_agent_context "Orchestrator" question
  let rSql := invokeWith (Handler.init sqlId subT) sqlRun b store tEnd
  match rSql.2.2.2 with
  | .error e =>
    let th := { th with final_answer := some "", steps := [] }
    finallyEnd th b rSql.2.1 rSql.2.2.1 tEnd (.error (.stage e))
  | .ok sqlOut =>
    let all_steps := [] ++ rSql.1.steps
    let rAna := invokeWith (Handler.init anaId subT) anaRun b rSql.2.1 tEnd
    match rAna.2.2.2 with
    | .error e =>
      let th := { th with final_answer := some "", steps := all_steps }
      finallyEnd th b rAna.2.1 (rSql.2.2.1 + rAna.2.2.1) tEnd (.error (.stage e))
    | .ok anaOut =>
      let all_steps := all_steps ++ rAna.1.steps
      let rRep := invokeWith (Handler.init repId subT) repRun b rAna.2.1 tEnd
      match rRep.2.2.2 with
      | .error e =>
        let th := { th with final_answer := some "", steps := all_steps }
        finallyEnd th b rRep.2.1 (rSql.2.2.1 + rAna.2.2.1 + rRep.2.2.1) tEnd
          (.error (.stage e))
      | .ok repOut =>
        let all_steps := all_steps ++ rRep.1.steps
        let th := { th with steps := all_steps, final_answer := some repOut }
        finallyEnd th b rRep.2.1 (rSql.2.2.1 + rAna.2.2.1 + rRep.2.2.1) tEnd
          (.ok { sql_findings := sqlOut
                 analytics_insights := anaOut
                 final_report := repOut
                 agent_flow := ["SQL Agent", "Analytics Agent", "Reporting Agent"] })

/-- The `/multi-agent-query` response payload. -/
structure MultiAgentResponse where
  question : String
  sql_findings : String
  analytics_insights : String
  final_report : String
  agent_flow : List String
  run_id : String
  error : Option String
deriving DecidableEq, Repr

/-- The `/multi-agent-query` endpoint `multi_agent_query`: creates a fresh
top-level handler before the try block, runs `process_query` with it, and
returns either the success payload or, on any exception, the error payload
with all result fields empty — both carrying the handler's run identifier. -/
def multi_agent_query (question rid : String) (t0 : Nat)
    (sqlId anaId repId : String) (subT : Nat)
    (sqlRun anaRun repRun : StageRun)
    (b : StoreBehaviour) (store : Store) (tEnd : Nat) : MultiAgentResponse × Store × Nat :=
  let th := Handler.init rid t0
  let pr := process_query question th sqlId anaId repId subT sqlRun anaRun repRun b store tEnd
  match pr.outcome with
  | .ok r =>
    ({ question := question
       sql_findings := r.sql_findings
       analytics_insights := r.analytics_insights
       final_report := r.final_report
       agent_flow := r.agent_flow
       run_id := rid
       error := none }, pr.store, pr.attempts)
  | .error e =>
    ({ question := question
       sql_findings := ""
       analytics_insights := ""
       final_report := ""
       agent_flow := []
       run_id := rid
       error := some ("Multi-agent processing failed: " ++ e.message) }, pr.store, pr.attempts)

/-- The SQL agent's `max_iterations` ceiling in `_create_sql_agent`. -/
def sql_agent_max_iterations : Nat := 15

/-- The Analytics agent's `max_iterations` ceiling in `_create_analytics_agent`. -/
def analytics_agent_max_iterations : Nat := 5

/-- The Reporting agent's `max_iterations` ceiling in `_create_reporting_agent`. -/
def reporting_agent_max_iterations : Nat := 5

/-- Modelled from the spec: the bounded agent reasoning loop of the consumed
reasoning/tool-execution engine (the `AgentExecutor`), whose implementation
is not part of this repository's sources.  Per the spec, each round-trip
either finishes with an answer or continues with a new internal state, the
loop is bounded by a maximum iteration count, and on exceeding the ceiling
it is forced to produce its best-effort answer (early stopping) rather than
failing outright. -/
def agentLoop {σ : Type} (step : σ → σ ⊕ String) (bestEffort : σ → String) :
    Nat → σ → String
  | 0, s => bestEffort s
  | n + 1, s =>
    match step s with
    | .inr answer => answer
    | .inl s' => agentLoop step bestEffort n s'

/-- The dict returned by `validate_sql_keywords` / `validate_answer_keywords`,
with the score kept as an exact rational. -/
structure KeywordValidation where
  found : List String
  missing : List String
  score : ℚ
deriving DecidableEq, Repr

/-- `validate_sql_keywords`: uppercases the query, partitions the expected
keywords by case-insensitive substring occurrence, and scores
`found / total` (0 when the expected list is empty). -/
def validate_sql_keywords (sql_query : String) (expected_keywords : List String) :
    KeywordValidation :=
  let sql_upper := strUpper sql_query
  let found := expected_keywords.filter (fun k => strIn (strUpper k) sql_upper)
  let missing := expected_keywords.filter (fun k => !(strIn (strUpper k) sql_upper))
  { found := found
    missing := missing
    score :=
      if expected_keywords ≠ [] then
        (found.length : ℚ) / (expected_keywords.length : ℚ)
      else 0 }

/-- `validate_answer_keywords`: the same scoring, lowercasing instead. -/
def validate_answer_keywords (answer : String) (expected_keywords : List String) :
    KeywordValidation :=
  let answer_lower := strLower answer
  let found := expected_keywords.filter (fun k => strIn (strLower k) answer_lower)
  let missing := expected_keywords.filter (fun k => !(strIn (strLower k) answer_lower))
  { found := found
    missing := missing
    score :=
      if expected_keywords ≠ [] then
        (found.length : ℚ) / (expected_keywords.length : ℚ)
      else 0 }

/-! ### Helper lemmas -/

theorem fromIso_isoFormat (t : Nat) : fromIso (isoFormat t) = .ok t := by
  simp [fromIso, isoFormat, List.replicate_succ, List.all_eq_true, List.mem_replicate,
    String.toList]

theorem pySub_dt_str (a : Nat) (s : String) :
    pySub (.dt a) (.str s) = .error .typeError := rfl

theorem feed_fields (h : Handler) (evs : List AgentEvent) :
    (h.feed evs).run_id = h.run_id ∧ (h.feed evs).steps = h.steps ∧
    (h.feed evs).final_answer = h.final_answer ∧
    (h.feed evs).start_time = h.start_time ∧
    (h.feed evs).agent_type = h.agent_type ∧
    (h.feed evs).original_question = h.original_question := by
  induction evs generalizing h with
  | nil => simp [Handler.feed]
  | cons e rest ih =>
    cases e <;>
      simpa [Handler.feed, Handler.on_agent_action, Handler.on_tool_end] using
        ih _

theorem docsFor_nil (k : String) : Store.docsFor [] k = [] := rfl

theorem docsFor_cons_eq (pk : String) (pv : StoredDoc) (s : Store) (k : String)
    (h : pk = k) :
    Store.docsFor ((pk, pv) :: s) k = (pk, pv) :: Store.docsFor s k := by
  simp [Store.docsFor, List.filter_cons, h]

theorem docsFor_cons_ne (pk : String) (pv : StoredDoc) (s : Store) (k : String)
    (h : pk ≠ k) :
    Store.docsFor ((pk, pv) :: s) k = Store.docsFor s k := by
  simp [Store.docsFor, List.filter_cons, h]

theorem upsert_nil (key : String) (d : StoredDoc) :
    Store.upsert [] key d = [(key, d)] := rfl

theorem upsert_cons_eq (pk : String) (pv : StoredDoc) (s : Store) (key : String)
    (d : StoredDoc) (h : pk = key) :
    Store.upsert ((pk, pv) :: s) key d = (key, d) :: s := by
  simp [Store.upsert, h]

theorem upsert_cons_ne (pk : String) (pv : StoredDoc) (s : Store) (key : String)
    (d : StoredDoc) (h : pk ≠ key) :
    Store.upsert ((pk, pv) :: s) key d = (pk, pv) :: Store.upsert s key d := by
  simp [Store.upsert, h]

theorem docsFor_upsert_other (s : Store) (key k : String) (d : StoredDoc) (hne : k ≠ key) :
    Store.docsFor (Store.upsert s key d) k = Store.docsFor s k := by
  induction s with
  | nil =>
    rw [upsert_nil, docsFor_cons_ne _ _ _ _ (Ne.symm hne), docsFor_nil]
  | cons p rest ih =>
    obtain ⟨pk, pv⟩ := p
    by_cases hpk : pk = key
    · subst hpk
      rw [upsert_cons_eq _ _ _ _ _ rfl, docsFor_cons_ne _ _ _ _ (Ne.symm hne),
        docsFor_cons_ne _ _ _ _ (Ne.symm hne)]
    · rw [upsert_cons_ne _ _ _ _ _ hpk]
      by_cases hk : pk = k
      · rw [docsFor_cons_eq _ _ _ _ hk, docsFor_cons_eq _ _ _ _ hk, ih]
      · rw [docsFor_cons_ne _ _ _ _ hk, docsFor_cons_ne _ _ _ _ hk, ih]

theorem docsFor_upsert_self (s : Store) (key : String) (d : StoredDoc)
    (hlen : (Store.docsFor s key).length ≤ 1) :
    Store.docsFor (Store.upsert s key d) key = [(key, d)] := by
  induction s with
  | nil => rw [upsert_nil, docsFor_cons_eq _ _ _ _ rfl, docsFor_nil]
  | cons p rest ih =>
    obtain ⟨pk, pv⟩ := p
    by_cases hpk : pk = key
    · subst hpk
      rw [upsert_cons_eq _ _ _ _ _ rfl, docsFor_cons_eq _ _ _ _ rfl]
      have hrest : Store.docsFor rest pk = [] := by
        rw [docsFor_cons_eq _ _ _ _ rfl] at hlen
        simp only [List.length_cons] at hlen
        exact List.length_eq_zero.mp (by omega)
      rw [hrest]
    · rw [upsert_cons_ne _ _ _ _ _ hpk, docsFor_cons_ne _ _ _ _ hpk]
      rw [docsFor_cons_ne _ _ _ _ hpk] at hlen
      exact ih hlen

theorem log_trace_absent (h : Handler) (store : Store) (tEnd : Nat) :
    h.log_trace .absent store tEnd = (store, 0, none) := by
  simp [Handler.log_trace]

theorem log_trace_ok (h : Handler) (store : Store) (tEnd t0 : Nat)
    (hst : h.start_time = isoFormat t0) :
    h.log_trace .ok store tEnd =
      (Store.upsert store h.run_id (.finalDoc (h.trace_document t0 tEnd)), 1, none) := by
  simp [Handler.log_trace, hst, fromIso_isoFormat, esIndex]

theorem log_trace_failing (h : Handler) (store : Store) (tEnd t0 : Nat)
    (hst : h.start_time = isoFormat t0) :
    h.log_trace .failing store tEnd = (store, 1, none) := by
  simp [Handler.log_trace, hst, fromIso_isoFormat, esIndex]

theorem log_trace_exc_none (h : Handler) (b : StoreBehaviour) (store : Store) (tEnd t0 : Nat)
    (hst : h.start_time = isoFormat t0) :
    (h.log_trace b store tEnd).2.2 = none := by
  cases b
  · simp [log_trace_absent]
  · simp [log_trace_ok h store tEnd t0 hst]
  · simp [log_trace_failing h store tEnd t0 hst]

theorem log_to_es_exc_none (h : Handler) (b : StoreBehaviour) (store : Store) :
    (h.log_to_elasticsearch b store).2.2 = none := by
  cases b <;> simp [Handler.log_to_elasticsearch, esIndex]

theorem log_to_es_absent (h : Handler) (store : Store) :
    h.log_to_elasticsearch .absent store = (store, 0, none) := by
  simp [Handler.log_to_elasticsearch]

theorem log_to_es_ok (h : Handler) (store : Store) :
    h.log_to_elasticsearch .ok store =
      (Store.upsert store h.run_id (.rawData h.trace_data), 1, none) := by
  simp [Handler.log_to_elasticsearch, esIndex]

theorem log_trace_docsFor_ne (h : Handler) (b : StoreBehaviour) (store : Store) (tEnd : Nat)
    (k : String) (hk : k ≠ h.run_id) :
    Store.docsFor (h.log_trace b store tEnd).1 k = Store.docsFor store k := by
  cases b
  · simp [log_trace_absent]
  · rcases hf : fromIso h.start_time with e | t0
    · simp [Handler.log_trace, hf]
    · simp [Handler.log_trace, hf, esIndex, docsFor_upsert_other _ _ _ _ hk]
  · rcases hf : fromIso h.start_time with e | t0 <;> simp [Handler.log_trace, hf, esIndex]

theorem log_to_es_docsFor_ne (h : Handler) (b : StoreBehaviour) (store : Store)
    (k : String) (hk : k ≠ h.run_id) :
    Store.docsFor (h.log_to_elasticsearch b store).1 k = Store.docsFor store k := by
  cases b <;>
    simp [Handler.log_to_elasticsearch, esIndex, docsFor_upsert_other _ _ _ _ hk]

theorem on_agent_finish_raises (h : Handler) (rv : List (String × String))
    (b : StoreBehaviour) (store : Store) (tEnd : Nat) :
    h.on_agent_finish rv b store tEnd =
      ⟨{ h with trace_data := { h.trace_data with
           final_output := some ((dictGet rv "output").getD ""), status := "finished" } },
       store, 0, some .typeError⟩ := by
  simp [Handler.on_agent_finish, pySub]

theorem on_chain_error_raises (h : Handler) (m : String)
    (b : StoreBehaviour) (store : Store) (tEnd : Nat) :
    h.on_chain_error m b store tEnd =
      ⟨{ h with
          final_answer := some "",
          trace_data := { h.trace_data with status := "error", error := some m } },
       store, 0, some .typeError⟩ := by
  simp [Handler.on_chain_error, pySub]

theorem handle_error_raises (h : Handler) (m : String)
    (b : StoreBehaviour) (store : Store) (tEnd : Nat) :
    h.handle_error m b store tEnd =
      ⟨{ h with
          final_answer := some ("Error: " ++ m),
          trace_data := { h.trace_data with status := "error", error := some m } },
       store, 0, some .typeError⟩ := by
  simp [Handler.handle_error, pySub]

theorem on_chain_end_fa_some (h : Handler) (outputs : List (String × String))
    (b : StoreBehaviour) (store : Store) (tEnd : Nat) (s : String)
    (hfa : h.final_answer = some s) :
    h.on_chain_end outputs b store tEnd =
      ⟨h, (h.log_trace b store tEnd).1, (h.log_trace b store tEnd).2.1,
        (h.log_trace b store tEnd).2.2⟩ := by
  rcases hl : h.log_trace b store tEnd with ⟨s', n, e⟩
  simp [Handler.on_chain_end, hfa, hl]

theorem on_chain_end_none_truthy (h : Handler) (out : String)
    (outputs : List (String × String))
    (b : StoreBehaviour) (store : Store) (tEnd : Nat)
    (hfa : h.final_answer = none) (hd : dictGet outputs "output" = some out)
    (hout : out ≠ "") :
    h.on_chain_end outputs b store tEnd =
      ⟨{ h with final_answer := some out },
       ({ h with final_answer := some out }.log_trace b store tEnd).1,
       ({ h with final_answer := some out }.log_trace b store tEnd).2.1,
       ({ h with final_answer := some out }.log_trace b store tEnd).2.2⟩ := by
  rcases hl : { h with final_answer := some out }.log_trace b store tEnd with ⟨s', n, e⟩
  simp [Handler.on_chain_end, hfa, hd, pyTruthy, hout, hl]

theorem on_chain_end_no_op (h : Handler) (outputs : List (String × String))
    (b : StoreBehaviour) (store : Store) (tEnd : Nat)
    (hfa : h.final_answer = none) (hsteps : h.steps = [])
    (hout : pyTruthy (dictGet outputs "output") = false) :
    h.on_chain_end outputs b store tEnd = ⟨h, store, 0, none⟩ := by
  simp [Handler.on_chain_end, hfa, hout, hsteps]

theorem on_chain_end_none_steps (h : Handler) (outputs : List (String × String))
    (b : StoreBehaviour) (store : Store) (tEnd : Nat)
    (hfa : h.final_answer = none) (hout : pyTruthy (dictGet outputs "output") = false)
    (hsteps : h.steps ≠ []) :
    h.on_chain_end outputs b store tEnd =
      ⟨h, (h.log_trace b store tEnd).1, (h.log_trace b store tEnd).2.1,
        (h.log_trace b store tEnd).2.2⟩ := by
  rcases hl : h.log_trace b store tEnd with ⟨s', n, e⟩
  simp [Handler.on_chain_end, hfa, hout, hl, hsteps]

theorem on_chain_end_cases (h : Handler) (outputs : List (String × String))
    (b : StoreBehaviour) (store : Store) (tEnd : Nat) :
    (∃ h', (h'.run_id = h.run_id ∧ h'.steps = h.steps ∧ h'.start_time = h.start_time) ∧
       h.on_chain_end outputs b store tEnd =
         ⟨h', (h'.log_trace b store tEnd).1, (h'.log_trace b store tEnd).2.1,
           (h'.log_trace b store tEnd).2.2⟩) ∨
    h.on_chain_end outputs b store tEnd = ⟨h, store, 0, none⟩ := by
  rcases hfa : h.final_answer with _ | s
  · rcases hd : dictGet outputs "output" with _ | out
    · by_cases hsteps : h.steps = []
      · exact Or.inr (on_chain_end_no_op h outputs b store tEnd hfa hsteps (by simp [hd, pyTruthy]))
      · exact Or.inl ⟨h, ⟨rfl, rfl, rfl⟩,
          on_chain_end_none_steps h outputs b store tEnd hfa (by simp [hd, pyTruthy]) hsteps⟩
    · by_cases hout : out = ""
      · subst hout
        by_cases hsteps : h.steps = []
        · exact Or.inr (on_chain_end_no_op h outputs b store tEnd hfa hsteps (by simp [hd, pyTruthy]))
        · exact Or.inl ⟨h, ⟨rfl, rfl, rfl⟩,
            on_chain_end_none_steps h outputs b store tEnd hfa (by simp [hd, pyTruthy]) hsteps⟩
      · exact Or.inl ⟨{ h with final_answer := some out }, ⟨rfl, rfl, rfl⟩,
          on_chain_end_none_truthy h out outputs b store tEnd hfa hd hout⟩
  · exact Or.inl ⟨h, ⟨rfl, rfl, rfl⟩, on_chain_end_fa_some h outputs b store tEnd s hfa⟩

theorem on_chain_end_run_id (h : Handler) (outputs : List (String × String))
    (b : StoreBehaviour) (store : Store) (tEnd : Nat) :
    (h.on_chain_end outputs b store tEnd).handler.run_id = h.run_id := by
  rcases on_chain_end_cases h outputs b store tEnd with ⟨h', ⟨hrid, -, -⟩, heq⟩ | heq
  · rw [heq]; exact hrid
  · rw [heq]

theorem on_chain_end_docsFor_ne (h : Handler) (outputs : List (String × String))
    (b : StoreBehaviour) (store : Store) (tEnd : Nat) (k : String) (hk : k ≠ h.run_id) :
    Store.docsFor (h.on_chain_end outputs b store tEnd).store k = Store.docsFor store k := by
  rcases on_chain_end_cases h outputs b store tEnd with ⟨h', ⟨hrid, -, -⟩, heq⟩ | heq
  · rw [heq]
    exact log_trace_docsFor_ne h' b store tEnd k (hrid ▸ hk)
  · rw [heq]
theorem invokeWith_err (h : Handler) (evs : List AgentEvent) (m : String)
    (b : StoreBehaviour) (store : Store) (tEnd : Nat) :
    invokeWith h ⟨evs, .err m⟩ b store tEnd =
      ({ h.feed evs with
          final_answer := some "",
          trace_data := { (h.feed evs).trace_data with status := "error", error := some m } },
       store, 0, .error m) := by
  simp [invokeWith, on_chain_error_raises]

theorem on_chain_end_handler_steps (h : Handler) (outputs : List (String × String))
    (b : StoreBehaviour) (store : Store) (tEnd : Nat) :
    (h.on_chain_end outputs b store tEnd).handler.steps = h.steps := by
  rcases on_chain_end_cases h outputs b store tEnd with ⟨h', ⟨-, hsteps, -⟩, heq⟩ | heq
  · rw [heq]; exact hsteps
  · rw [heq]

theorem invokeWith_handler_steps (h : Handler) (run : StageRun) (b : StoreBehaviour)
    (store : Store) (tEnd : Nat) :
    (invokeWith h run b store tEnd).1.steps = h.steps := by
  obtain ⟨evs, outc⟩ := run
  obtain ⟨-, hsteps, -, -, -, -⟩ := feed_fields h evs
  cases outc with
  | ok out =>
    simp [invokeWith, on_agent_finish_raises]
    rw [on_chain_end_handler_steps]
    exact hsteps
  | err m =>
    rw [invokeWith_err]
    exact hsteps

theorem invokeWith_docsFor_ne (h : Handler) (run : StageRun) (b : StoreBehaviour)
    (store : Store) (tEnd : Nat) (k : String) (hk : k ≠ h.run_id) :
    Store.docsFor (invokeWith h run b store tEnd).2.1 k = Store.docsFor store k := by
  obtain ⟨evs, outc⟩ := run
  obtain ⟨hrid, -, -, -, -, -⟩ := feed_fields h evs
  cases outc with
  | err m => rw [invokeWith_err]
  | ok out =>
    simp [invokeWith, on_agent_finish_raises]
    exact on_chain_end_docsFor_ne _ _ b store tEnd k (by simpa [hrid] using hk)

theorem on_chain_end_absent_store (h : Handler) (outputs : List (String × String))
    (store : Store) (tEnd : Nat) :
    (h.on_chain_end outputs .absent store tEnd).store = store := by
  rcases on_chain_end_cases h outputs .absent store tEnd with ⟨h', -, heq⟩ | heq
  · rw [heq]; simp [log_trace_absent]
  · rw [heq]

theorem invokeWith_absent_store (h : Handler) (run : StageRun)
    (store : Store) (tEnd : Nat) :
    (invokeWith h run .absent store tEnd).2.1 = store := by
  obtain ⟨evs, outc⟩ := run
  cases outc with
  | err m => rw [invokeWith_err]
  | ok out =>
    simp [invokeWith, on_agent_finish_raises]
    exact on_chain_end_absent_store _ _ _ _

theorem finallyEnd_absent_store (th : Handler) (store : Store) (n tEnd : Nat)
    (pending : Except PipelineError OrchestrationResult) :
    (finallyEnd th .absent store n tEnd pending).store = store := by
  simp only [finallyEnd]
  split
  · exact on_chain_end_absent_store _ _ _ _
  · exact on_chain_end_absent_store _ _ _ _
theorem startsWithChars_iff (n : List Char) : ∀ h : List Char,
    startsWithChars n h = true ↔ ∃ r, h = n ++ r := by
  induction n with
  | nil => intro h; simp [startsWithChars]
  | cons a as ih =>
    intro h
    cases h with
    | nil => simp [startsWithChars]
    | cons b bs =>
      simp only [startsWithChars, Bool.and_eq_true, beq_iff_eq, ih, List.cons_append,
        List.cons.injEq]
      constructor
      · rintro ⟨hab, r, hr⟩
        exact ⟨r, hab.symm, hr⟩
      · rintro ⟨r, hba, hr⟩
        exact ⟨hba.symm, r, hr⟩

theorem containsChars_iff (n : List Char) : ∀ h : List Char,
    containsChars n h = true ↔ ∃ l r, h = l ++ n ++ r := by
  intro h
  induction h with
  | nil =>
    simp only [containsChars, List.isEmpty_iff]
    constructor
    · rintro rfl; exact ⟨[], [], rfl⟩
    · rintro ⟨l, r, hr⟩
      rcases List.append_eq_nil.mp (List.append_eq_nil.mp hr.symm).1 with ⟨-, h2⟩
      exact h2
  | cons c cs ih =>
    simp only [containsChars, Bool.or_eq_true, startsWithChars_iff, ih]
    constructor
    · rintro (⟨r, hr⟩ | ⟨l, r, hr⟩)
      · exact ⟨[], r, by simpa using hr⟩
      · exact ⟨c :: l, r, by simp [hr]⟩
    · rintro ⟨l, r, hr⟩
      cases l with
      | nil => exact Or.inl ⟨r, by simpa using hr⟩
      | cons x xs =>
        rcases (List.cons.injEq _ _ _ _).mp (by simpa using hr) with ⟨-, hrest⟩
        exact Or.inr ⟨xs, r, by rw [hrest, List.append_assoc]⟩

theorem strIn_iff (needle hay : String) :
    strIn needle hay = true ↔ ∃ l r, hay.toList = l ++ needle.toList ++ r := by
  exact containsChars_iff needle.toList hay.toList
/-! ### Claim theorems -/

/-- C9: every invocation of `on_agent_finish`, `on_chain_error`, `on_llm_error`
or `on_tool_error` raises a `TypeError` before reaching its persistence call,
because each computes `duration_ms` by subtracting the handler's `start_time`
— stored at construction as an ISO-format string — from a `datetime` value;
consequently these terminal handlers never complete normally and never
themselves perform a store write. -/
theorem c9_terminal_hooks_raise_type_error
    (h : Handler) (rv : List (String × String)) (m : String)
    (b : StoreBehaviour) (store : Store) (tEnd : Nat) :
    ((h.on_agent_finish rv b store tEnd).exc = some PyErr.typeError ∧
      (h.on_agent_finish rv b store tEnd).attempts = 0 ∧
      (h.on_agent_finish rv b store tEnd).store = store) ∧
    ((h.on_chain_error m b store tEnd).exc = some PyErr.typeError ∧
      (h.on_chain_error m b store tEnd).attempts = 0 ∧
      (h.on_chain_error m b store tEnd).store = store) ∧
    ((h.on_llm_error m b store tEnd).exc = some PyErr.typeError ∧
      (h.on_llm_error m b store tEnd).attempts = 0 ∧
      (h.on_llm_error m b store tEnd).store = store) ∧
    ((h.on_tool_error m b store tEnd).exc = some PyErr.typeError ∧
      (h.on_tool_error m b store tEnd).attempts = 0 ∧
      (h.on_tool_error m b store tEnd).store = store) := by
  refine ⟨?_, ?_, ?_, ?_⟩ <;>
    simp [on_agent_finish_raises, on_chain_error_raises, handle_error_raises,
      Handler.on_llm_error, Handler.on_tool_error]

/-- C1 is violated by the code (code bug): a single-agent run that terminates
with a chain error performs zero persistence attempts even though the trace
store is available — `on_chain_error` raises `TypeError` while computing
`duration_ms` before its `_log_trace` call — contradicting the
exactly-one-persistence-attempt-per-terminal-transition property.  The store
is left untouched and the endpoint returns the error payload. -/
theorem c1_error_terminated_run_never_persisted :
    (handle_query "q" "r1" 0 ⟨[], .err "boom"⟩ .ok [] 5).2.2 = 0 ∧
    (handle_query "q" "r1" 0 ⟨[], .err "boom"⟩ .ok [] 5).2.1 = [] ∧
    (handle_query "q" "r1" 0 ⟨[], .err "boom"⟩ .ok [] 5).1 =
      { answer := "", run_id := "r1", error := some "An error occurred: boom" } := by
  exact ⟨rfl, rfl, rfl⟩

/-- C2 is violated by the code (code bug): in a successful orchestrated run
whose SQL stage records an action and an observation, the persisted top-level
trace document has an empty step sequence — not the concatenation of the
stages' recorded steps — because `process_query` harvests each sub-handler's
`steps` attribute, which `on_agent_action` / `on_tool_end` never populate
(they append to `trace_data["steps"]`). -/
theorem c2_merged_trace_persists_empty_steps :
    (Store.docsFor (multi_agent_query "q" "top" 0 "s" "a" "r" 1
        ⟨[AgentEvent.action "sql_db_query" "SELECT 1" "thought" 2,
          AgentEvent.toolEnd "rows" 3], .ok "data"⟩
        ⟨[], .ok "insight"⟩ ⟨[], .ok "report"⟩ .ok [] 9).2.1 "top"
      = [("top", .finalDoc
          { run_id := "top", question := "q", agent_type := "Orchestrator",
            final_answer := some "report", status := "completed", steps := [],
            start_time := isoFormat 0, end_time := isoFormat 9,
            duration_seconds := 9 })]) ∧
    ((Handler.init "s" 1).feed
        [AgentEvent.action "sql_db_query" "SELECT 1" "thought" 2,
         AgentEvent.toolEnd "rows" 3]).trace_data.steps ≠ [] := by
  exact ⟨rfl, by decide⟩

/-- C8: every request to either public entry point — including requests whose
processing raises an exception, under every store behaviour — returns a
structured payload carrying the run identifier of the handler created for
that request. -/
theorem c8_responses_carry_run_id
    (question rid sqlId anaId repId : String) (t0 subT : Nat)
    (run sqlRun anaRun repRun : StageRun) (b : StoreBehaviour)
    (store : Store) (tEnd : Nat) :
    (handle_query question rid t0 run b store tEnd).1.run_id = rid ∧
    (multi_agent_query question rid t0 sqlId anaId repId subT sqlRun anaRun repRun
        b store tEnd).1.run_id = rid := by
  constructor
  · rcases hiw : invokeWith (Handler.init rid t0) run b store tEnd with ⟨h', s', n, res⟩
    cases res <;> simp [handle_query, hiw]
  · rcases hpo : process_query question (Handler.init rid t0) sqlId anaId repId subT
        sqlRun anaRun repRun b store tEnd with ⟨ph, ps, pn, po⟩
    cases po <;> simp [multi_agent_query, hpo]

/-- C6: each agent role has a finite iteration ceiling, taken from the three
`AgentExecutor` constructions (15 for the exploratory SQL role, 5 for
Analytics and Reporting), the SQL ceiling is strictly higher than the other
two, and the (spec-modelled) bounded reasoning loop always produces a
best-effort answer when the ceiling is exhausted instead of failing. -/
theorem c6_iteration_ceilings_and_early_stopping :
    sql_agent_max_iterations = 15 ∧
    analytics_agent_max_iterations = 5 ∧
    reporting_agent_max_iterations = 5 ∧
    sql_agent_max_iterations > analytics_agent_max_iterations ∧
    sql_agent_max_iterations > reporting_agent_max_iterations ∧
    (∀ (σ : Type) (step : σ → σ ⊕ String) (best : σ → String) (n : Nat) (s : σ),
      (∀ x, ∃ y, step x = Sum.inl y) →
      ∃ x, agentLoop step best n s = best x) := by
  refine ⟨rfl, rfl, rfl, by decide, by decide, ?_⟩
  intro σ step best n
  induction n with
  | zero => intro s _; exact ⟨s, rfl⟩
  | succ k ih =>
    intro s hstep
    obtain ⟨y, hy⟩ := hstep s
    simp only [agentLoop, hy]
    exact ih y hstep

/-- Witness for `c6_iteration_ceilings_and_early_stopping`: a loop whose step
never finishes, run at the SQL ceiling, returns a best-effort answer. -/
theorem c6_witness :
    ∃ x : Nat, agentLoop (fun n : Nat => Sum.inl (n + 1)) (fun n => toString n)
      sql_agent_max_iterations 0 = toString x :=
  c6_iteration_ceilings_and_early_stopping.2.2.2.2.2 Nat _ _ sql_agent_max_iterations 0
    (fun x => ⟨x + 1, rfl⟩)
/-- Bridge between the status condition evaluated by `_log_trace` and its
specification reading: the condition holds exactly for a set, non-empty final
answer with no occurrence of the substring `Error`. -/
theorem status_cond_iff (h : Handler) :
    (pyTruthy h.final_answer && !(strIn "Error" (h.final_answer.getD ""))) = true ↔
      ∃ s, h.final_answer = some s ∧ s ≠ "" ∧
        ¬ ∃ l r, s.toList = l ++ "Error".toList ++ r := by
  rcases hfa : h.final_answer with _ | s
  · simp [pyTruthy]
  · simp only [pyTruthy, Option.getD_some, Bool.and_eq_true, bne_iff_ne,
      Bool.not_eq_true', Option.some.injEq]
    constructor
    · rintro ⟨hs, herr⟩
      refine ⟨s, rfl, hs, fun hex => ?_⟩
      rw [(strIn_iff "Error" s).mpr hex] at herr
      cases herr
    · rintro ⟨s2, hs2, hne2, hnex⟩
      subst hs2
      refine ⟨hne2, ?_⟩
      rcases hi : strIn "Error" s with _ | _
      · rfl
      · exact absurd ((strIn_iff "Error" s).mp hi) hnex

/-- C10: a document written by the final flush has status `completed` exactly
when the handler's final answer is a non-empty string not containing the
substring `Error`, and status `error` in every other case (unset, empty, or
containing `Error`) — the status depends only on the final answer, not on how
the run terminated; and `_log_trace` with the store available writes exactly
that document under the run identifier. -/
theorem c10_status_depends_only_on_final_answer :
    (∀ (h : Handler) (t0 tEnd : Nat),
      ((h.trace_document t0 tEnd).status = "completed" ↔
        ∃ s, h.final_answer = some s ∧ s ≠ "" ∧
          ¬ ∃ l r, s.toList = l ++ "Error".toList ++ r) ∧
      ((h.trace_document t0 tEnd).status = "completed" ∨
        (h.trace_document t0 tEnd).status = "error")) ∧
    (∀ (h : Handler) (store : Store) (tEnd t0 : Nat),
      h.start_time = isoFormat t0 →
      (h.log_trace .ok store tEnd).1 =
        Store.upsert store h.run_id (.finalDoc (h.trace_document t0 tEnd))) := by
  constructor
  · intro h t0 tEnd
    have hev : (h.trace_document t0 tEnd).status =
        if (pyTruthy h.final_answer && !(strIn "Error" (h.final_answer.getD ""))) then
          "completed" else "error" := rfl
    rcases hcond : (pyTruthy h.final_answer && !(strIn "Error" (h.final_answer.getD "")))
      with _ | _
    · rw [hcond] at hev
      simp only [Bool.false_eq_true, if_false] at hev
      rw [hev]
      constructor
      · constructor
        · intro hco; exact absurd hco (by decide)
        · intro hr
          rw [(status_cond_iff h).mpr hr] at hcond
          cases hcond
      · exact Or.inr rfl
    · rw [hcond] at hev
      simp only [if_true] at hev
      rw [hev]
      exact ⟨⟨fun _ => (status_cond_iff h).mp hcond, fun _ => rfl⟩, Or.inl rfl⟩
  · intro h store tEnd t0 hst
    rw [log_trace_ok h store tEnd t0 hst]

/-- Witness for `c10_status_depends_only_on_final_answer`: a handler whose
final answer contains `Error` is flushed with status `error`. -/
theorem c10_witness :
    ({ Handler.init "w10" 0 with final_answer := some "Error: x" }.log_trace .ok [] 3).1 =
      Store.upsert [] "w10" (.finalDoc ({ Handler.init "w10" 0 with
        final_answer := some "Error: x" }.trace_document 0 3)) ∧
    ({ Handler.init "w10" 0 with
        final_answer := some "Error: x" }.trace_document 0 3).status = "error" := by
  exact ⟨c10_status_depends_only_on_final_answer.2 _ [] 3 0 rfl, by decide⟩

/-- C7 counterexample: at the empty expected-keyword list every expected
keyword (vacuously) occurs case-insensitively in the text, yet the score is
0, not 1, refuting the all-keywords-present clause of the claim as stated. -/
theorem c7_empty_keyword_list_counterexample :
    (∀ k ∈ ([] : List String), strIn (strUpper k) (strUpper "SELECT") = true) ∧
    (validate_sql_keywords "SELECT" []).missing = [] ∧
    (validate_sql_keywords "SELECT" []).score ≠ 1 := by
  refine ⟨by simp, rfl, ?_⟩
  have h0 : (validate_sql_keywords "SELECT" []).score = 0 := rfl
  rw [h0]
  norm_num

/-- C7 (amended): for every text and every non-empty expected-keyword list,
both scoring functions return 1 when every keyword occurs (case-insensitively)
in the text, 0 when none occurs, and in every case the ratio of the number of
keywords found to the total number of expected keywords. -/
theorem c7_keyword_scores (text : String) (expected : List String)
    (hne : expected ≠ []) :
    ((∀ k ∈ expected, strIn (strUpper k) (strUpper text) = true) →
      (validate_sql_keywords text expected).score = 1) ∧
    ((∀ k ∈ expected, strIn (strUpper k) (strUpper text) = false) →
      (validate_sql_keywords text expected).score = 0) ∧
    (validate_sql_keywords text expected).score =
      ((validate_sql_keywords text expected).found.length : ℚ) / (expected.length : ℚ) ∧
    ((∀ k ∈ expected, strIn (strLower k) (strLower text) = true) →
      (validate_answer_keywords text expected).score = 1) ∧
    ((∀ k ∈ expected, strIn (strLower k) (strLower text) = false) →
      (validate_answer_keywords text expected).score = 0) ∧
    (validate_answer_keywords text expected).score =
      ((validate_answer_keywords text expected).found.length : ℚ) / (expected.length : ℚ) := by
  have hlen : (expected.length : ℚ) ≠ 0 :=
    Nat.cast_ne_zero.mpr (fun hz => hne (List.length_eq_zero.mp hz))
  refine ⟨?_, ?_, ?_, ?_, ?_, ?_⟩
  · intro hall
    have hfound : expected.filter (fun k => strIn (strUpper k) (strUpper text)) = expected :=
      List.filter_eq_self.mpr hall
    simp [validate_sql_keywords, hne, hfound, div_self hlen]
  · intro hnone
    have hfound : expected.filter (fun k => strIn (strUpper k) (strUpper text)) = [] :=
      List.filter_eq_nil_iff.mpr (fun a ha => by simp [hnone a ha])
    simp [validate_sql_keywords, hne, hfound]
  · simp [validate_sql_keywords, hne]
  · intro hall
    have hfound : expected.filter (fun k => strIn (strLower k) (strLower text)) = expected :=
      List.filter_eq_self.mpr hall
    simp [validate_answer_keywords, hne, hfound, div_self hlen]
  · intro hnone
    have hfound : expected.filter (fun k => strIn (strLower k) (strLower text)) = [] :=
      List.filter_eq_nil_iff.mpr (fun a ha => by simp [hnone a ha])
    simp [validate_answer_keywords, hne, hfound]
  · simp [validate_answer_keywords, hne]

/-- Witness for `c7_keyword_scores`: concrete full and zero coverage. -/
theorem c7_witness :
    (validate_sql_keywords "SELECT count FROM t" ["select", "count"]).score = 1 ∧
    (validate_answer_keywords "The most customers are in USA." ["usa"]).score = 1 ∧
    (validate_sql_keywords "SELECT" ["JOIN"]).score = 0 := by
  refine ⟨(c7_keyword_scores "SELECT count FROM t" ["select", "count"] (by decide)).1
      (by decide),
    (c7_keyword_scores "The most customers are in USA." ["usa"] (by decide)).2.2.2.1
      (by decide),
    (c7_keyword_scores "SELECT" ["JOIN"] (by decide)).2.1 (by decide)⟩
theorem invokeWith_ok_result (h : Handler) (evs : List AgentEvent) (out : String)
    (b : StoreBehaviour) (store : Store) (tEnd : Nat) :
    (invokeWith h ⟨evs, .ok out⟩ b store tEnd).2.2.2 = .ok out := rfl

theorem invokeWith_err_result (h : Handler) (evs : List AgentEvent) (m : String)
    (b : StoreBehaviour) (store : Store) (tEnd : Nat) :
    (invokeWith h ⟨evs, .err m⟩ b store tEnd).2.2.2 = .error m := rfl

theorem process_query_absent_store (question : String) (th : Handler)
    (sqlId anaId repId : String) (subT : Nat) (sqlRun anaRun repRun : StageRun)
    (store : Store) (tEnd : Nat) :
    (process_query question th sqlId anaId repId subT sqlRun anaRun repRun
        .absent store tEnd).store = store := by
  obtain ⟨sev, sou⟩ := sqlRun
  obtain ⟨aev, aou⟩ := anaRun
  obtain ⟨rev, rou⟩ := repRun
  cases sou with
  | err m =>
    simp only [process_query, invokeWith_err_result]
    rw [finallyEnd_absent_store, invokeWith_absent_store]
  | ok so =>
    cases aou with
    | err m =>
      simp only [process_query, invokeWith_ok_result, invokeWith_err_result]
      rw [finallyEnd_absent_store, invokeWith_absent_store, invokeWith_absent_store]
    | ok ao =>
      cases rou with
      | err m =>
        simp only [process_query, invokeWith_ok_result, invokeWith_err_result]
        rw [finallyEnd_absent_store, invokeWith_absent_store, invokeWith_absent_store,
          invokeWith_absent_store]
      | ok ro =>
        simp only [process_query, invokeWith_ok_result]
        rw [finallyEnd_absent_store, invokeWith_absent_store, invokeWith_absent_store,
          invokeWith_absent_store]

/-- C3: for every flush invocation and every trace-store behaviour (client
absent, store unreachable, or write rejected), both flush operations return
normally — no exception raised by the store write propagates to the caller;
with the client absent both flushes are no-ops; and with the trace store
forcibly disabled both public entry points still return their well-formed
answer/error payload (carrying the run identifier) with the store untouched. -/
theorem c3_flush_swallows_store_failures :
    (∀ (h : Handler) (b : StoreBehaviour) (store : Store) (tEnd t0 : Nat),
      h.start_time = isoFormat t0 → (h.log_trace b store tEnd).2.2 = none) ∧
    (∀ (h : Handler) (b : StoreBehaviour) (store : Store),
      (h.log_to_elasticsearch b store).2.2 = none) ∧
    (∀ (h : Handler) (store : Store) (tEnd : Nat),
      h.log_trace .absent store tEnd = (store, 0, none) ∧
      h.log_to_elasticsearch .absent store = (store, 0, none)) ∧
    (∀ (question rid : String) (t0 : Nat) (run : StageRun) (store : Store) (tEnd : Nat),
      (handle_query question rid t0 run .absent store tEnd).1.run_id = rid ∧
      (handle_query question rid t0 run .absent store tEnd).2.1 = store ∧
      (∀ out, run.outcome = .ok out →
        (handle_query question rid t0 run .absent store tEnd).1 =
          { answer := out, run_id := rid, error := none }) ∧
      (∀ m, run.outcome = .err m →
        (handle_query question rid t0 run .absent store tEnd).1 =
          { answer := "", run_id := rid,
            error := some ("An error occurred: " ++ m) })) ∧
    (∀ (question rid sqlId anaId repId : String) (t0 subT : Nat)
        (sqlRun anaRun repRun : StageRun) (store : Store) (tEnd : Nat),
      (multi_agent_query question rid t0 sqlId anaId repId subT sqlRun anaRun repRun
          .absent store tEnd).1.run_id = rid ∧
      (multi_agent_query question rid t0 sqlId anaId repId subT sqlRun anaRun repRun
          .absent store tEnd).2.1 = store) := by
  refine ⟨?_, ?_, ?_, ?_, ?_⟩
  · intro h b store tEnd t0 hst
    exact log_trace_exc_none h b store tEnd t0 hst
  · intro h b store
    exact log_to_es_exc_none h b store
  · intro h store tEnd
    exact ⟨log_trace_absent h store tEnd, log_to_es_absent h store⟩
  · intro question rid t0 run store tEnd
    obtain ⟨evs, outc⟩ := run
    have hstore : (invokeWith (Handler.init rid t0) ⟨evs, outc⟩ .absent store tEnd).2.1
        = store := invokeWith_absent_store _ _ _ _
    cases outc with
    | ok out =>
      refine ⟨?_, ?_, ?_, ?_⟩
      · simp [handle_query, invokeWith_ok_result]
      · simpa [handle_query, invokeWith_ok_result] using hstore
      · intro out2 h2
        injection h2 with h3
        subst h3
        simp [handle_query, invokeWith_ok_result]
      · intro m hm
        simp at hm
    | err m0 =>
      refine ⟨?_, ?_, ?_, ?_⟩
      · simp [handle_query, invokeWith_err_result]
      · simpa [handle_query, invokeWith_err_result] using hstore
      · intro out2 h2
        simp at h2
      · intro m hm
        injection hm with h3
        subst h3
        simp [handle_query, invokeWith_err_result]
  · intro question rid sqlId anaId repId t0 subT sqlRun anaRun repRun store tEnd
    constructor
    · rcases hpo : process_query question (Handler.init rid t0) sqlId anaId repId subT
          sqlRun anaRun repRun .absent store tEnd with ⟨ph, ps, pn, po⟩
      cases po <;> simp [multi_agent_query, hpo]
    · have hps := process_query_absent_store question (Handler.init rid t0)
        sqlId anaId repId subT sqlRun anaRun repRun store tEnd
      rcases hpo : process_query question (Handler.init rid t0) sqlId anaId repId subT
          sqlRun anaRun repRun .absent store tEnd with ⟨ph, ps, pn, po⟩
      rw [hpo] at hps
      cases po <;> simpa [multi_agent_query, hpo] using hps

/-- Witness for `c3_flush_swallows_store_failures`: a concrete handler flushed
against a rejecting store raises nothing, and the endpoints respond with the
store disabled. -/
theorem c3_witness :
    ((Handler.init "w3" 0).log_trace .failing [] 4).2.2 = none ∧
    (handle_query "q" "w3" 0 ⟨[], .ok "fine"⟩ .absent [] 4).1 =
      { answer := "fine", run_id := "w3", error := none } := by
  refine ⟨c3_flush_swallows_store_failures.1 (Handler.init "w3" 0) .failing [] 4 0 rfl, ?_⟩
  exact (c3_flush_swallows_store_failures.2.2.2.1 "q" "w3" 0 ⟨[], .ok "fine"⟩ [] 4).2.2.1
    "fine" rfl
theorem set_agent_context_fields (h : Handler) (a q : String) :
    (h.set_agent_context a q).run_id = h.run_id ∧
    (h.set_agent_context a q).start_time = h.start_time ∧
    (h.set_agent_context a q).final_answer = h.final_answer ∧
    (h.set_agent_context a q).steps = h.steps := by
  by_cases hq : q ≠ "" <;> simp [Handler.set_agent_context, hq]

/-- C5: flushing twice under the same run identifier leaves the store with
exactly one document for that identifier — the second write overwrites the
first — for both flush entry points; every write either flush performs uses
the handler's own run identifier as the document key (documents under any
other key are untouched); and the run identifier is immutable under every
handler operation. -/
theorem c5_flush_idempotent_by_run_id :
    (∀ (h : Handler) (store : Store) (tEnd tEnd2 t0 : Nat),
      h.start_time = isoFormat t0 →
      (Store.docsFor store h.run_id).length ≤ 1 →
      Store.docsFor ((h.log_trace .ok ((h.log_trace .ok store tEnd).1) tEnd2).1) h.run_id
        = [(h.run_id, .finalDoc (h.trace_document t0 tEnd2))]) ∧
    (∀ (h : Handler) (store : Store),
      (Store.docsFor store h.run_id).length ≤ 1 →
      Store.docsFor ((h.log_to_elasticsearch .ok
          ((h.log_to_elasticsearch .ok store).1)).1) h.run_id
        = [(h.run_id, .rawData h.trace_data)]) ∧
    (∀ (h : Handler) (b : StoreBehaviour) (store : Store) (tEnd : Nat) (k : String),
      k ≠ h.run_id →
      Store.docsFor (h.log_trace b store tEnd).1 k = Store.docsFor store k ∧
      Store.docsFor (h.log_to_elasticsearch b store).1 k = Store.docsFor store k) ∧
    (∀ (h : Handler) (evs : List AgentEvent) (a q out m : String)
        (rv outputs : List (String × String)) (b : StoreBehaviour) (store : Store)
        (tEnd : Nat),
      (h.feed evs).run_id = h.run_id ∧
      (h.set_agent_context a q).run_id = h.run_id ∧
      (h.on_agent_action a q out tEnd).run_id = h.run_id ∧
      (h.on_tool_end out tEnd).run_id = h.run_id ∧
      (h.on_agent_finish rv b store tEnd).handler.run_id = h.run_id ∧
      (h.on_chain_end outputs b store tEnd).handler.run_id = h.run_id ∧
      (h.on_chain_error m b store tEnd).handler.run_id = h.run_id ∧
      (h.handle_error m b store tEnd).handler.run_id = h.run_id) := by
  refine ⟨?_, ?_, ?_, ?_⟩
  · intro h store tEnd tEnd2 t0 hst hlen
    rw [log_trace_ok h store tEnd t0 hst]
    rw [log_trace_ok h _ tEnd2 t0 hst]
    apply docsFor_upsert_self
    rw [docsFor_upsert_self store h.run_id _ hlen]
    simp
  · intro h store hlen
    rw [log_to_es_ok h store]
    rw [log_to_es_ok h _]
    apply docsFor_upsert_self
    rw [docsFor_upsert_self store h.run_id _ hlen]
    simp
  · intro h b store tEnd k hk
    exact ⟨log_trace_docsFor_ne h b store tEnd k hk, log_to_es_docsFor_ne h b store k hk⟩
  · intro h evs a q out m rv outputs b store tEnd
    refine ⟨(feed_fields h evs).1, (set_agent_context_fields h a q).1, rfl, rfl, ?_, ?_, ?_, ?_⟩
    · rw [on_agent_finish_raises]
    · exact on_chain_end_run_id h outputs b store tEnd
    · rw [on_chain_error_raises]
    · rw [handle_error_raises]

/-- Witness for `c5_flush_idempotent_by_run_id`: double-flushing a concrete
handler into an empty store leaves exactly one document under its run id. -/
theorem c5_witness :
    Store.docsFor (((Handler.init "w5" 0).log_trace .ok
        (((Handler.init "w5" 0).log_trace .ok [] 1).1) 2).1) "w5"
      = [("w5", .finalDoc ((Handler.init "w5" 0).trace_document 0 2))] :=
  c5_flush_idempotent_by_run_id.1 (Handler.init "w5" 0) [] 1 2 0 rfl (by decide)

theorem finallyEnd_fa_empty (th : Handler) (b : StoreBehaviour) (store : Store)
    (n tEnd : Nat) (pending : Except PipelineError OrchestrationResult)
    (hfa : th.final_answer = some "") :
    finallyEnd th b store n tEnd pending =
      { handler := th
        store := (th.log_trace b store tEnd).1
        attempts := n + (th.log_trace b store tEnd).2.1
        outcome :=
          match (th.log_trace b store tEnd).2.2 with
          | some e => .error (.internal e)
          | none => pending } := by
  have hcond : pyTruthy th.final_answer = false := by simp [hfa, pyTruthy]
  simp only [finallyEnd, hcond, Bool.false_eq_true, if_false,
    on_chain_end_fa_some th [] b store tEnd "" hfa]

theorem process_query_sql_err (question : String) (th0 : Handler)
    (sqlId anaId repId : String) (subT : Nat)
    (sev : List AgentEvent) (m : String) (anaRun repRun : StageRun)
    (b : StoreBehaviour) (store : Store) (tEnd : Nat) :
    process_query question th0 sqlId anaId repId subT ⟨sev, .err m⟩ anaRun repRun
        b store tEnd =
      finallyEnd
        { (({ th0 with steps := [] }).set_agent_context "Orchestrator" question) with
            final_answer := some "", steps := [] }
        b (invokeWith (Handler.init sqlId subT) ⟨sev, .err m⟩ b store tEnd).2.1
        (invokeWith (Handler.init sqlId subT) ⟨sev, .err m⟩ b store tEnd).2.2.1
        tEnd (.error (.stage m)) := rfl

theorem process_query_ana_err (question : String) (th0 : Handler)
    (sqlId anaId repId : String) (subT : Nat)
    (sev aev : List AgentEvent) (out m : String) (repRun : StageRun)
    (b : StoreBehaviour) (store : Store) (tEnd : Nat) :
    process_query question th0 sqlId anaId repId subT ⟨sev, .ok out⟩ ⟨aev, .err m⟩ repRun
        b store tEnd =
      finallyEnd
        { (({ th0 with steps := [] }).set_agent_context "Orchestrator" question) with
            final_answer := some "",
            steps :=
              [] ++ (invokeWith (Handler.init sqlId subT) ⟨sev, .ok out⟩ b store tEnd).1.steps }
        b (invokeWith (Handler.init anaId subT) ⟨aev, .err m⟩ b
            (invokeWith (Handler.init sqlId subT) ⟨sev, .ok out⟩ b store tEnd).2.1 tEnd).2.1
        ((invokeWith (Handler.init sqlId subT) ⟨sev, .ok out⟩ b store tEnd).2.2.1 +
          (invokeWith (Handler.init anaId subT) ⟨aev, .err m⟩ b
            (invokeWith (Handler.init sqlId subT) ⟨sev, .ok out⟩ b store tEnd).2.1 tEnd).2.2.1)
        tEnd (.error (.stage m)) := rfl

theorem process_query_rep_err (question : String) (th0 : Handler)
    (sqlId anaId repId : String) (subT : Nat)
    (sev aev rev : List AgentEvent) (out out2 m : String)
    (b : StoreBehaviour) (store : Store) (tEnd : Nat) :
    process_query question th0 sqlId anaId repId subT
        ⟨sev, .ok out⟩ ⟨aev, .ok out2⟩ ⟨rev, .err m⟩ b store tEnd =
      finallyEnd
        { (({ th0 with steps := [] }).set_agent_context "Orchestrator" question) with
            final_answer := some "",
            steps :=
              ([] ++ (invokeWith (Handler.init sqlId subT) ⟨sev, .ok out⟩ b store tEnd).1.steps)
                ++ (invokeWith (Handler.init anaId subT) ⟨aev, .ok out2⟩ b
                    (invokeWith (Handler.init sqlId subT) ⟨sev, .ok out⟩ b store tEnd).2.1
                    tEnd).1.steps }
        b (invokeWith (Handler.init repId subT) ⟨rev, .err m⟩ b
            (invokeWith (Handler.init anaId subT) ⟨aev, .ok out2⟩ b
              (invokeWith (Handler.init sqlId subT) ⟨sev, .ok out⟩ b store tEnd).2.1 tEnd).2.1
            tEnd).2.1
        ((invokeWith (Handler.init sqlId subT) ⟨sev, .ok out⟩ b store tEnd).2.2.1 +
          (invokeWith (Handler.init anaId subT) ⟨aev, .ok out2⟩ b
            (invokeWith (Handler.init sqlId subT) ⟨sev, .ok out⟩ b store tEnd).2.1 tEnd).2.2.1 +
          (invokeWith (Handler.init repId subT) ⟨rev, .err m⟩ b
            (invokeWith (Handler.init anaId subT) ⟨aev, .ok out2⟩ b
              (invokeWith (Handler.init sqlId subT) ⟨sev, .ok out⟩ b store tEnd).2.1 tEnd).2.1
            tEnd).2.2.1)
        tEnd (.error (.stage m)) := rfl
theorem error_flush_characterization (th : Handler) (store : Store) (n tEnd t0 : Nat)
    (m rid : String)
    (hfa : th.final_answer = some "") (hst : th.start_time = isoFormat t0)
    (hrid : th.run_id = rid)
    (hlen : (Store.docsFor store rid).length ≤ 1) :
    (finallyEnd th .ok store n tEnd (.error (.stage m))).outcome = .error (.stage m) ∧
    Store.docsFor (finallyEnd th .ok store n tEnd (.error (.stage m))).store rid
      = [(rid, .finalDoc (th.trace_document t0 tEnd))] ∧
    (th.trace_document t0 tEnd).status = "error" ∧
    (th.trace_document t0 tEnd).final_answer = some "" ∧
    (th.trace_document t0 tEnd).steps = th.steps := by
  rw [finallyEnd_fa_empty th .ok store n tEnd _ hfa]
  rw [log_trace_ok th store tEnd t0 hst]
  refine ⟨rfl, ?_, ?_, hfa, rfl⟩
  · rw [hrid]
    exact docsFor_upsert_self store rid _ hlen
  · simp [Handler.trace_document, hfa, pyTruthy]

theorem multi_agent_query_outcome_err (question rid sqlId anaId repId : String)
    (t0 subT : Nat) (sqlRun anaRun repRun : StageRun) (b : StoreBehaviour)
    (store : Store) (tEnd : Nat) (pe : PipelineError)
    (hpo : (process_query question (Handler.init rid t0) sqlId anaId repId subT
        sqlRun anaRun repRun b store tEnd).outcome = .error pe) :
    multi_agent_query question rid t0 sqlId anaId repId subT sqlRun anaRun repRun
        b store tEnd =
      ({ question := question, sql_findings := "", analytics_insights := "",
         final_report := "", agent_flow := [], run_id := rid,
         error := some ("Multi-agent processing failed: " ++ pe.message) },
       (process_query question (Handler.init rid t0) sqlId anaId repId subT
          sqlRun anaRun repRun b store tEnd).store,
       (process_query question (Handler.init rid t0) sqlId anaId repId subT
          sqlRun anaRun repRun b store tEnd).attempts) := by
  rcases hpr : process_query question (Handler.init rid t0) sqlId anaId repId subT
      sqlRun anaRun repRun b store tEnd with ⟨ph, ps, pn, po⟩
  rw [hpr] at hpo
  change po = Except.error pe at hpo
  subst hpo
  simp [multi_agent_query, hpr]
/-- C4: if a stage of the orchestrated pipeline raises, no later stage is
executed (the result does not depend on the later stages at all), the
exception is re-raised by `process_query`, the endpoint returns
`sql_findings`, `analytics_insights` and `final_report` all empty with
`error` populated, and the persisted top-level trace has status `error`,
final answer set to the empty string, and retains exactly the steps the
orchestrator had accumulated from the stages completed before the failure. -/
theorem c4_stage_failure_policy
    (question rid sqlId anaId repId : String) (t0 subT : Nat)
    (sqlRun anaRun repRun : StageRun) (store : Store) (tEnd : Nat)
    (hs : sqlId ≠ rid) (ha : anaId ≠ rid) (hr : repId ≠ rid)
    (hstore : (Store.docsFor store rid).length ≤ 1) :
    (∀ m, sqlRun.outcome = .err m →
      (∀ anaRun2 repRun2,
        multi_agent_query question rid t0 sqlId anaId repId subT sqlRun anaRun2 repRun2
            .ok store tEnd
          = multi_agent_query question rid t0 sqlId anaId repId subT sqlRun anaRun repRun
            .ok store tEnd) ∧
      (process_query question (Handler.init rid t0) sqlId anaId repId subT
          sqlRun anaRun repRun .ok store tEnd).outcome = .error (.stage m) ∧
      (multi_agent_query question rid t0 sqlId anaId repId subT sqlRun anaRun repRun
          .ok store tEnd).1.sql_findings = "" ∧
      (multi_agent_query question rid t0 sqlId anaId repId subT sqlRun anaRun repRun
          .ok store tEnd).1.analytics_insights = "" ∧
      (multi_agent_query question rid t0 sqlId anaId repId subT sqlRun anaRun repRun
          .ok store tEnd).1.final_report = "" ∧
      (multi_agent_query question rid t0 sqlId anaId repId subT sqlRun anaRun repRun
          .ok store tEnd).1.error = some ("Multi-agent processing failed: " ++ m) ∧
      ∃ d : TraceDocument,
        Store.docsFor (multi_agent_query question rid t0 sqlId anaId repId subT
            sqlRun anaRun repRun .ok store tEnd).2.1 rid = [(rid, .finalDoc d)] ∧
        d.status = "error" ∧ d.final_answer = some "" ∧ d.steps = []) ∧
    (∀ m out, sqlRun.outcome = .ok out → anaRun.outcome = .err m →
      (∀ repRun2,
        multi_agent_query question rid t0 sqlId anaId repId subT sqlRun anaRun repRun2
            .ok store tEnd
          = multi_agent_query question rid t0 sqlId anaId repId subT sqlRun anaRun repRun
            .ok store tEnd) ∧
      (process_query question (Handler.init rid t0) sqlId anaId repId subT
          sqlRun anaRun repRun .ok store tEnd).outcome = .error (.stage m) ∧
      (multi_agent_query question rid t0 sqlId anaId repId subT sqlRun anaRun repRun
          .ok store tEnd).1.sql_findings = "" ∧
      (multi_agent_query question rid t0 sqlId anaId repId subT sqlRun anaRun repRun
          .ok store tEnd).1.analytics_insights = "" ∧
      (multi_agent_query question rid t0 sqlId anaId repId subT sqlRun anaRun repRun
          .ok store tEnd).1.final_report = "" ∧
      (multi_agent_query question rid t0 sqlId anaId repId subT sqlRun anaRun repRun
          .ok store tEnd).1.error = some ("Multi-agent processing failed: " ++ m) ∧
      ∃ d : TraceDocument,
        Store.docsFor (multi_agent_query question rid t0 sqlId anaId repId subT
            sqlRun anaRun repRun .ok store tEnd).2.1 rid = [(rid, .finalDoc d)] ∧
        d.status = "error" ∧ d.final_answer = some "" ∧
        d.steps = [] ++
          (invokeWith (Handler.init sqlId subT) sqlRun .ok store tEnd).1.steps) ∧
    (∀ m out out2, sqlRun.outcome = .ok out → anaRun.outcome = .ok out2 →
        repRun.outcome = .err m →
      (process_query question (Handler.init rid t0) sqlId anaId repId subT
          sqlRun anaRun repRun .ok store tEnd).outcome = .error (.stage m) ∧
      (multi_agent_query question rid t0 sqlId anaId repId subT sqlRun anaRun repRun
          .ok store tEnd).1.sql_findings = "" ∧
      (multi_agent_query question rid t0 sqlId anaId repId subT sqlRun anaRun repRun
          .ok store tEnd).1.analytics_insights = "" ∧
      (multi_agent_query question rid t0 sqlId anaId repId subT sqlRun anaRun repRun
          .ok store tEnd).1.final_report = "" ∧
      (multi_agent_query question rid t0 sqlId anaId repId subT sqlRun anaRun repRun
          .ok store tEnd).1.error = some ("Multi-agent processing failed: " ++ m) ∧
      ∃ d : TraceDocument,
        Store.docsFor (multi_agent_query question rid t0 sqlId anaId repId subT
            sqlRun anaRun repRun .ok store tEnd).2.1 rid = [(rid, .finalDoc d)] ∧
        d.status = "error" ∧ d.final_answer = some "" ∧
        d.steps = ([] ++
            (invokeWith (Handler.init sqlId subT) sqlRun .ok store tEnd).1.steps) ++
          (invokeWith (Handler.init anaId subT) anaRun .ok
            (invokeWith (Handler.init sqlId subT) sqlRun .ok store tEnd).2.1
            tEnd).1.steps) := by
  obtain ⟨sev, sou⟩ := sqlRun
  obtain ⟨aev, aou⟩ := anaRun
  obtain ⟨rev, rou⟩ := repRun
  have hst2 : (({ Handler.init rid t0 with steps := ([] : List Step) }).set_agent_context
      "Orchestrator" question).start_time = isoFormat t0 :=
    (set_agent_context_fields _ _ _).2.1
  have hrid2 : (({ Handler.init rid t0 with steps := ([] : List Step) }).set_agent_context
      "Orchestrator" question).run_id = rid :=
    (set_agent_context_fields _ _ _).1
  refine ⟨?_, ?_, ?_⟩
  · intro m hm
    change sou = StageOutcome.err m at hm
    subst hm
    have hlen2 : (Store.docsFor (invokeWith (Handler.init sqlId subT) ⟨sev, .err m⟩ .ok
        store tEnd).2.1 rid).length ≤ 1 := by
      rw [invokeWith_docsFor_ne (Handler.init sqlId subT) _ _ _ _ rid (Ne.symm hs)]
      exact hstore
    have hchar := error_flush_characterization
      { (({ Handler.init rid t0 with steps := ([] : List Step) }).set_agent_context
          "Orchestrator" question) with
          final_answer := some "", steps := ([] : List Step) }
      (invokeWith (Handler.init sqlId subT) ⟨sev, .err m⟩ .ok store tEnd).2.1
      (invokeWith (Handler.init sqlId subT) ⟨sev, .err m⟩ .ok store tEnd).2.2.1
      tEnd t0 m rid rfl hst2 hrid2 hlen2
    have hpq := process_query_sql_err question (Handler.init rid t0) sqlId anaId repId subT
      sev m ⟨aev, aou⟩ ⟨rev, rou⟩ .ok store tEnd
    have hout : (process_query question (Handler.init rid t0) sqlId anaId repId subT
        ⟨sev, .err m⟩ ⟨aev, aou⟩ ⟨rev, rou⟩ .ok store tEnd).outcome
        = .error (.stage m) := by
      rw [hpq]; exact hchar.1
    have hmq := multi_agent_query_outcome_err question rid sqlId anaId repId t0 subT
      ⟨sev, .err m⟩ ⟨aev, aou⟩ ⟨rev, rou⟩ .ok store tEnd (.stage m) hout
    refine ⟨?_, hout, ?_, ?_, ?_, ?_, ?_⟩
    · intro anaRun2 repRun2
      simp only [multi_agent_query, process_query_sql_err]
    · rw [hmq]
    · rw [hmq]
    · rw [hmq]
    · rw [hmq]; rfl
    · exact ⟨_, by rw [hmq, hpq]; exact hchar.2.1,
        hchar.2.2.1, hchar.2.2.2.1, hchar.2.2.2.2⟩
  · intro m out hsou haou
    change sou = StageOutcome.ok out at hsou
    change aou = StageOutcome.err m at haou
    subst hsou
    subst haou
    have hlen2 : (Store.docsFor (invokeWith (Handler.init anaId subT) ⟨aev, .err m⟩ .ok
        (invokeWith (Handler.init sqlId subT) ⟨sev, .ok out⟩ .ok store tEnd).2.1
        tEnd).2.1 rid).length ≤ 1 := by
      rw [invokeWith_docsFor_ne (Handler.init anaId subT) _ _ _ _ rid (Ne.symm ha),
        invokeWith_docsFor_ne (Handler.init sqlId subT) _ _ _ _ rid (Ne.symm hs)]
      exact hstore
    have hchar := error_flush_characterization
      { (({ Handler.init rid t0 with steps := ([] : List Step) }).set_agent_context
          "Orchestrator" question) with
          final_answer := some "",
          steps := [] ++
            (invokeWith (Handler.init sqlId subT) ⟨sev, .ok out⟩ .ok store tEnd).1.steps }
      (invokeWith (Handler.init anaId subT) ⟨aev, .err m⟩ .ok
        (invokeWith (Handler.init sqlId subT) ⟨sev, .ok out⟩ .ok store tEnd).2.1 tEnd).2.1
      ((invokeWith (Handler.init sqlId subT) ⟨sev, .ok out⟩ .ok store tEnd).2.2.1 +
        (invokeWith (Handler.init anaId subT) ⟨aev, .err m⟩ .ok
          (invokeWith (Handler.init sqlId subT) ⟨sev, .ok out⟩ .ok store tEnd).2.1
          tEnd).2.2.1)
      tEnd t0 m rid rfl hst2 hrid2 hlen2
    have hpq := process_query_ana_err question (Handler.init rid t0) sqlId anaId repId subT
      sev aev out m ⟨rev, rou⟩ .ok store tEnd
    have hout : (process_query question (Handler.init rid t0) sqlId anaId repId subT
        ⟨sev, .ok out⟩ ⟨aev, .err m⟩ ⟨rev, rou⟩ .ok store tEnd).outcome
        = .error (.stage m) := by
      rw [hpq]; exact hchar.1
    have hmq := multi_agent_query_outcome_err question rid sqlId anaId repId t0 subT
      ⟨sev, .ok out⟩ ⟨aev, .err m⟩ ⟨rev, rou⟩ .ok store tEnd (.stage m) hout
    refine ⟨?_, hout, ?_, ?_, ?_, ?_, ?_⟩
    · intro repRun2
      simp only [multi_agent_query, process_query_ana_err]
    · rw [hmq]
    · rw [hmq]
    · rw [hmq]
    · rw [hmq]; rfl
    · exact ⟨_, by rw [hmq, hpq]; exact hchar.2.1,
        hchar.2.2.1, hchar.2.2.2.1, hchar.2.2.2.2⟩
  · intro m out out2 hsou haou hrou
    change sou = StageOutcome.ok out at hsou
    change aou = StageOutcome.ok out2 at haou
    change rou = StageOutcome.err m at hrou
    subst hsou
    subst haou
    subst hrou
    have hlen2 : (Store.docsFor (invokeWith (Handler.init repId subT) ⟨rev, .err m⟩ .ok
        (invokeWith (Handler.init anaId subT) ⟨aev, .ok out2⟩ .ok
          (invokeWith (Handler.init sqlId subT) ⟨sev, .ok out⟩ .ok store tEnd).2.1 tEnd).2.1
        tEnd).2.1 rid).length ≤ 1 := by
      rw [invokeWith_docsFor_ne (Handler.init repId subT) _ _ _ _ rid (Ne.symm hr),
        invokeWith_docsFor_ne (Handler.init anaId subT) _ _ _ _ rid (Ne.symm ha),
        invokeWith_docsFor_ne (Handler.init sqlId subT) _ _ _ _ rid (Ne.symm hs)]
      exact hstore
    have hchar := error_flush_characterization
      { (({ Handler.init rid t0 with steps := ([] : List Step) }).set_agent_context
          "Orchestrator" question) with
          final_answer := some "",
          steps := ([] ++
              (invokeWith (Handler.init sqlId subT) ⟨sev, .ok out⟩ .ok store tEnd).1.steps)
            ++ (invokeWith (Handler.init anaId subT) ⟨aev, .ok out2⟩ .ok
                (invokeWith (Handler.init sqlId subT) ⟨sev, .ok out⟩ .ok store tEnd).2.1
                tEnd).1.steps }
      (invokeWith (Handler.init repId subT) ⟨rev, .err m⟩ .ok
        (invokeWith (Handler.init anaId subT) ⟨aev, .ok out2⟩ .ok
          (invokeWith (Handler.init sqlId subT) ⟨sev, .ok out⟩ .ok store tEnd).2.1 tEnd).2.1
        tEnd).2.1
      ((invokeWith (Handler.init sqlId subT) ⟨sev, .ok out⟩ .ok store tEnd).2.2.1 +
        (invokeWith (Handler.init anaId subT) ⟨aev, .ok out2⟩ .ok
          (invokeWith (Handler.init sqlId subT) ⟨sev, .ok out⟩ .ok store tEnd).2.1
          tEnd).2.2.1 +
        (invokeWith (Handler.init repId subT) ⟨rev, .err m⟩ .ok
          (invokeWith (Handler.init anaId subT) ⟨aev, .ok out2⟩ .ok
            (invokeWith (Handler.init sqlId subT) ⟨sev, .ok out⟩ .ok store tEnd).2.1
            tEnd).2.1 tEnd).2.2.1)
      tEnd t0 m rid rfl hst2 hrid2 hlen2
    have hpq := process_query_rep_err question (Handler.init rid t0) sqlId anaId repId subT
      sev aev rev out out2 m .ok store tEnd
    have hout : (process_query question (Handler.init rid t0) sqlId anaId repId subT
        ⟨sev, .ok out⟩ ⟨aev, .ok out2⟩ ⟨rev, .err m⟩ .ok store tEnd).outcome
        = .error (.stage m) := by
      rw [hpq]; exact hchar.1
    have hmq := multi_agent_query_outcome_err question rid sqlId anaId repId t0 subT
      ⟨sev, .ok out⟩ ⟨aev, .ok out2⟩ ⟨rev, .err m⟩ .ok store tEnd (.stage m) hout
    refine ⟨hout, ?_, ?_, ?_, ?_, ?_⟩
    · rw [hmq]
    · rw [hmq]
    · rw [hmq]
    · rw [hmq]; rfl
    · exact ⟨_, by rw [hmq, hpq]; exact hchar.2.1,
        hchar.2.2.1, hchar.2.2.2.1, hchar.2.2.2.2⟩

/-- Witness for `c4_stage_failure_policy`: a concrete run whose Analytics
stage raises yields the empty report and a populated error field. -/
theorem c4_witness :
    (multi_agent_query "q" "top" 0 "s" "a" "r" 1
        ⟨[], .ok "data"⟩ ⟨[], .err "bad stage"⟩ ⟨[], .ok "x"⟩ .ok [] 9).1.final_report
      = "" ∧
    (multi_agent_query "q" "top" 0 "s" "a" "r" 1
        ⟨[], .ok "data"⟩ ⟨[], .err "bad stage"⟩ ⟨[], .ok "x"⟩ .ok [] 9).1.error
      = some "Multi-agent processing failed: bad stage" := by
  have h := (c4_stage_failure_policy "q" "top" "s" "a" "r" 0 1
      ⟨[], .ok "data"⟩ ⟨[], .err "bad stage"⟩ ⟨[], .ok "x"⟩ [] 9
      (by decide) (by decide) (by decide) (by decide)).2.1 "bad stage" "data" rfl rfl
  exact ⟨h.2.2.2.2.1, h.2.2.2.2.2.1⟩

end Observability
